import Mathlib

/-!
Shallow embedding of `c_src/enacl_nif.c` (enacl: Erlang bindings for NaCl).

Each NIF entry point is embedded as a Lean function over a model of Erlang
terms.  The external libsodium primitives (`crypto_hash`, `crypto_box`, ...)
and the allocator (`enif_alloc_binary`) are opaque to the NIF layer, so they
are supplied as an oracle structure `Ext`; every embedded NIF additionally
returns a trace of the externally observable events it performed (allocation
attempts and primitive invocations), so that "the primitive is never
executed" and "the allocation is not retried" are statable.
-/

set_option autoImplicit false

namespace Enacl

/-- A model of the Erlang terms a NIF argument can be: a flat binary, an
integer, a (proper) list of terms, or an atom. -/
inductive Term where
  | bin : List Nat → Term
  | int : Int → Term
  | lst : List Term → Term
  | atm : String → Term

/-- `enif_inspect_binary`: succeeds exactly on a flat binary. -/
def inspectBinary : Term → Option (List Nat)
  | .bin bs => some bs
  | _ => none

mutual
/-- `enif_inspect_iolist_as_binary` applied to a term: a flat binary is
returned as is, a list is flattened as an iolist, everything else fails. -/
def flattenIolist : Term → Option (List Nat)
  | .bin bs => some bs
  | .lst ts => flattenElems ts
  | _ => none

/-- Flatten the successive elements of an iolist. -/
def flattenElems : List Term → Option (List Nat)
  | [] => some []
  | t :: ts =>
    match flattenElem t, flattenElems ts with
    | some h, some r => some (h ++ r)
    | _, _ => none

/-- An element of an iolist: a byte (an integer in 0..255), a binary, or a
nested iolist. -/
def flattenElem : Term → Option (List Nat)
  | .int n => if 0 ≤ n ∧ n < 256 then some [n.toNat] else none
  | .bin bs => some bs
  | .lst ts => flattenElems ts
  | _ => none
end

/-- `enif_get_uint64`: succeeds exactly on an integer representable as an
unsigned 64-bit value. -/
def getUInt64 : Term → Option Nat
  | .int n => if 0 ≤ n ∧ n < 2 ^ 64 then some n.toNat else none
  | _ => none

/-- The observable result of a NIF call: a badarg exception, an
`(error, Reason)` tuple, a binary, a boolean atom, a tuple of two
binaries (keypairs), or an integer (the size constants). -/
inductive Res where
  | badarg : Res
  | err : String → Res
  | bin : List Nat → Res
  | bool : Bool → Res
  | pair : List Nat → List Nat → Res
  | int : Int → Res
deriving DecidableEq, Repr

/-- Externally observable events of a NIF call: an attempt to allocate an
output binary of a given size, or an invocation of an external libsodium
primitive. -/
inductive Event where
  | alloc : Nat → Event
  | prim : String → Event
deriving DecidableEq, Repr

/-- The environment of externals the NIF layer runs against: the allocator
(indexed by the position of the allocation inside one call, since a call may
allocate twice) and the libsodium primitives, modelled as pure functions on
byte lists.  Primitives that report success/failure through a return status
are modelled with `Option`. -/
structure Ext where
  alloc : Nat → Nat → Bool
  hash : List Nat → List Nat
  box_keypair : List Nat × List Nat
  box : List Nat → List Nat → List Nat → List Nat → List Nat
  box_open : List Nat → List Nat → List Nat → List Nat → Option (List Nat)
  sign_keypair : List Nat × List Nat
  sign : List Nat → List Nat → List Nat
  sign_open : List Nat → List Nat → Option (List Nat)
  secretbox : List Nat → List Nat → List Nat → List Nat
  secretbox_open : List Nat → List Nat → List Nat → Option (List Nat)
  stream : Nat → List Nat → List Nat → List Nat
  stream_xor : List Nat → List Nat → List Nat → List Nat
  auth : List Nat → List Nat → List Nat
  auth_verify : List Nat → List Nat → List Nat → Bool
  onetimeauth : List Nat → List Nat → List Nat
  onetimeauth_verify : List Nat → List Nat → List Nat → Bool
  verify_16 : List Nat → List Nat → Bool
  verify_32 : List Nat → List Nat → Bool

/-- The content of a freshly allocated output binary of `size` bytes after
the external primitive wrote `written` into it: the buffer keeps exactly
`size` bytes regardless of what was written. -/
def writeBuf (size : Nat) (written : List Nat) : List Nat :=
  (written ++ List.replicate size 0).take size

/-- `enif_make_sub_binary`: the sub-binary of `bs` starting at `pos` of
length `len`. -/
def subBinary (bs : List Nat) (pos len : Nat) : List Nat :=
  (bs.drop pos).take len

/-- `size_t` subtraction as the C source performs it: wraps modulo `2 ^ 64`
when the subtrahend exceeds the minuend. -/
def sub64 (a b : Nat) : Nat :=
  if b ≤ a then a - b else a + 2 ^ 64 - b

/- libsodium / NaCl size constants used by the NIF layer. -/

def crypto_hash_BYTES : Nat := 64
def crypto_box_NONCEBYTES : Nat := 24
def crypto_box_ZEROBYTES : Nat := 32
def crypto_box_BOXZEROBYTES : Nat := 16
def crypto_box_PUBLICKEYBYTES : Nat := 32
def crypto_box_SECRETKEYBYTES : Nat := 32
def crypto_sign_PUBLICKEYBYTES : Nat := 32
def crypto_sign_SECRETKEYBYTES : Nat := 64
def crypto_sign_BYTES : Nat := 64
def crypto_secretbox_NONCEBYTES : Nat := 24
def crypto_secretbox_KEYBYTES : Nat := 32
def crypto_secretbox_ZEROBYTES : Nat := 32
def crypto_secretbox_BOXZEROBYTES : Nat := 16
def crypto_stream_KEYBYTES : Nat := 32
def crypto_stream_NONCEBYTES : Nat := 24
def crypto_auth_BYTES : Nat := 32
def crypto_auth_KEYBYTES : Nat := 32
def crypto_onetimeauth_BYTES : Nat := 16
def crypto_onetimeauth_KEYBYTES : Nat := 32

/-! ## The embedded NIF entry points

Each `enif_crypto_*` function below mirrors the C function of the same name:
first the argument inspection and size validation (factored into a `*Check`
function returning `none` exactly when the C code returns `badarg`), then the
allocation of the output binary and the call into libsodium.  The result is
paired with the chronological list of external events of the call. -/

/-- Argument validation of `enif_crypto_hash`: one argument, inspected as an
iolist. -/
def hashCheck : List Term → Option (List Nat)
  | [a0] => flattenIolist a0
  | _ => none

/-- `enif_crypto_hash`. -/
def enif_crypto_hash (ext : Ext) (args : List Term) : Res × List Event :=
  match hashCheck args with
  | none => (.badarg, [])
  | some input =>
    if ext.alloc 0 crypto_hash_BYTES then
      (.bin (writeBuf crypto_hash_BYTES (ext.hash input)),
        [.alloc crypto_hash_BYTES, .prim "crypto_hash"])
    else
      (.err "alloc_failed", [.alloc crypto_hash_BYTES])

/-- Argument validation of `enif_crypto_verify_16`: two flat binaries of 16
bytes each. -/
def verify16Check : List Term → Option (List Nat × List Nat)
  | [a0, a1] => do
    let x ← inspectBinary a0
    let y ← inspectBinary a1
    if x.length = 16 ∧ y.length = 16 then some (x, y) else none
  | _ => none

/-- `enif_crypto_verify_16`. -/
def enif_crypto_verify_16 (ext : Ext) (args : List Term) : Res × List Event :=
  match verify16Check args with
  | none => (.badarg, [])
  | some (x, y) => (.bool (ext.verify_16 x y), [.prim "crypto_verify_16"])

/-- Argument validation of `enif_crypto_verify_32`: two flat binaries of 32
bytes each. -/
def verify32Check : List Term → Option (List Nat × List Nat)
  | [a0, a1] => do
    let x ← inspectBinary a0
    let y ← inspectBinary a1
    if x.length = 32 ∧ y.length = 32 then some (x, y) else none
  | _ => none

/-- `enif_crypto_verify_32`. -/
def enif_crypto_verify_32 (ext : Ext) (args : List Term) : Res × List Event :=
  match verify32Check args with
  | none => (.badarg, [])
  | some (x, y) => (.bool (ext.verify_32 x y), [.prim "crypto_verify_32"])

/-- `enif_crypto_box_NONCEBYTES`. -/
def enif_crypto_box_NONCEBYTES (_ext : Ext) (_args : List Term) : Res × List Event :=
  (.int crypto_box_NONCEBYTES, [])

/-- `enif_crypto_box_ZEROBYTES`. -/
def enif_crypto_box_ZEROBYTES (_ext : Ext) (_args : List Term) : Res × List Event :=
  (.int crypto_box_ZEROBYTES, [])

/-- `enif_crypto_box_BOXZEROBYTES`. -/
def enif_crypto_box_BOXZEROBYTES (_ext : Ext) (_args : List Term) : Res × List Event :=
  (.int crypto_box_BOXZEROBYTES, [])

/-- `enif_crypto_box_PUBLICKEYBYTES`. -/
def enif_crypto_box_PUBLICKEYBYTES (_ext : Ext) (_args : List Term) : Res × List Event :=
  (.int crypto_box_PUBLICKEYBYTES, [])

/-- `enif_crypto_box_SECRETKEYBYTES`. -/
def enif_crypto_box_SECRETKEYBYTES (_ext : Ext) (_args : List Term) : Res × List Event :=
  (.int crypto_box_SECRETKEYBYTES, [])

/-- `enif_crypto_box_keypair`: no arguments; allocates the public-key buffer
then the secret-key buffer, then calls `crypto_box_keypair`. -/
def enif_crypto_box_keypair (ext : Ext) (args : List Term) : Res × List Event :=
  match args with
  | [] =>
    if ext.alloc 0 crypto_box_PUBLICKEYBYTES then
      if ext.alloc 1 crypto_box_SECRETKEYBYTES then
        (.pair (writeBuf crypto_box_PUBLICKEYBYTES ext.box_keypair.1)
            (writeBuf crypto_box_SECRETKEYBYTES ext.box_keypair.2),
          [.alloc crypto_box_PUBLICKEYBYTES, .alloc crypto_box_SECRETKEYBYTES,
            .prim "crypto_box_keypair"])
      else
        (.err "alloc_failed",
          [.alloc crypto_box_PUBLICKEYBYTES, .alloc crypto_box_SECRETKEYBYTES])
    else
      (.err "alloc_failed", [.alloc crypto_box_PUBLICKEYBYTES])
  | _ => (.badarg, [])

/-- Argument validation of `enif_crypto_box`: padded message as iolist, then
nonce, public key and secret key as flat binaries of the fixed sizes; the
padded message must be at least `crypto_box_ZEROBYTES` long. -/
def boxCheck : List Term → Option (List Nat × List Nat × List Nat × List Nat)
  | [a0, a1, a2, a3] => do
    let pm ← flattenIolist a0
    let n ← inspectBinary a1
    let pk ← inspectBinary a2
    let sk ← inspectBinary a3
    if n.length = crypto_box_NONCEBYTES ∧ pk.length = crypto_box_PUBLICKEYBYTES ∧
        sk.length = crypto_box_SECRETKEYBYTES ∧ crypto_box_ZEROBYTES ≤ pm.length then
      some (pm, n, pk, sk)
    else none
  | _ => none

/-- `enif_crypto_box`. -/
def enif_crypto_box (ext : Ext) (args : List Term) : Res × List Event :=
  match boxCheck args with
  | none => (.badarg, [])
  | some (pm, n, pk, sk) =>
    if ext.alloc 0 pm.length then
      (.bin (subBinary (writeBuf pm.length (ext.box pm n pk sk))
          crypto_box_BOXZEROBYTES (sub64 pm.length crypto_box_BOXZEROBYTES)),
        [.alloc pm.length, .prim "crypto_box"])
    else
      (.err "alloc_failed", [.alloc pm.length])

/-- Argument validation of `enif_crypto_box_open`: padded ciphertext as
iolist, then nonce, public key and secret key as flat binaries of the fixed
sizes; the padded ciphertext must be at least `crypto_box_BOXZEROBYTES`
long. -/
def boxOpenCheck : List Term → Option (List Nat × List Nat × List Nat × List Nat)
  | [a0, a1, a2, a3] => do
    let ct ← flattenIolist a0
    let n ← inspectBinary a1
    let pk ← inspectBinary a2
    let sk ← inspectBinary a3
    if n.length = crypto_box_NONCEBYTES ∧ pk.length = crypto_box_PUBLICKEYBYTES ∧
        sk.length = crypto_box_SECRETKEYBYTES ∧ crypto_box_BOXZEROBYTES ≤ ct.length then
      some (ct, n, pk, sk)
    else none
  | _ => none

/-- `enif_crypto_box_open`. -/
def enif_crypto_box_open (ext : Ext) (args : List Term) : Res × List Event :=
  match boxOpenCheck args with
  | none => (.badarg, [])
  | some (ct, n, pk, sk) =>
    if ext.alloc 0 ct.length then
      match ext.box_open ct n pk sk with
      | some pt =>
        (.bin (subBinary (writeBuf ct.length pt)
            crypto_box_ZEROBYTES (sub64 ct.length crypto_box_ZEROBYTES)),
          [.alloc ct.length, .prim "crypto_box_open"])
      | none =>
        (.err "failed_verification", [.alloc ct.length, .prim "crypto_box_open"])
    else
      (.err "alloc_failed", [.alloc ct.length])

/-- `enif_crypto_sign_PUBLICKEYBYTES`. -/
def enif_crypto_sign_PUBLICKEYBYTES (_ext : Ext) (_args : List Term) : Res × List Event :=
  (.int crypto_sign_PUBLICKEYBYTES, [])

/-- `enif_crypto_sign_SECRETKEYBYTES`. -/
def enif_crypto_sign_SECRETKEYBYTES (_ext : Ext) (_args : List Term) : Res × List Event :=
  (.int crypto_sign_SECRETKEYBYTES, [])

/-- `enif_crypto_sign_keypair`: no arguments; allocates the public-key buffer
then the secret-key buffer, then calls `crypto_sign_keypair`. -/
def enif_crypto_sign_keypair (ext : Ext) (args : List Term) : Res × List Event :=
  match args with
  | [] =>
    if ext.alloc 0 crypto_sign_PUBLICKEYBYTES then
      if ext.alloc 1 crypto_sign_SECRETKEYBYTES then
        (.pair (writeBuf crypto_sign_PUBLICKEYBYTES ext.sign_keypair.1)
            (writeBuf crypto_sign_SECRETKEYBYTES ext.sign_keypair.2),
          [.alloc crypto_sign_PUBLICKEYBYTES, .alloc crypto_sign_SECRETKEYBYTES,
            .prim "crypto_sign_keypair"])
      else
        (.err "alloc_failed",
          [.alloc crypto_sign_PUBLICKEYBYTES, .alloc crypto_sign_SECRETKEYBYTES])
    else
      (.err "alloc_failed", [.alloc crypto_sign_PUBLICKEYBYTES])
  | _ => (.badarg, [])

/-- Argument validation of `enif_crypto_sign`: message as iolist, secret key
as a flat binary of `crypto_sign_SECRETKEYBYTES` bytes. -/
def signCheck : List Term → Option (List Nat × List Nat)
  | [a0, a1] => do
    let m ← flattenIolist a0
    let sk ← inspectBinary a1
    if sk.length = crypto_sign_SECRETKEYBYTES then some (m, sk) else none
  | _ => none

/-- `enif_crypto_sign`: allocates `m.length + crypto_sign_BYTES` bytes, calls
`crypto_sign`, and returns the prefix of the buffer of the length the
primitive reported. -/
def enif_crypto_sign (ext : Ext) (args : List Term) : Res × List Event :=
  match signCheck args with
  | none => (.badarg, [])
  | some (m, sk) =>
    if ext.alloc 0 (m.length + crypto_sign_BYTES) then
      (.bin (subBinary (writeBuf (m.length + crypto_sign_BYTES) (ext.sign m sk))
          0 (ext.sign m sk).length),
        [.alloc (m.length + crypto_sign_BYTES), .prim "crypto_sign"])
    else
      (.err "alloc_failed", [.alloc (m.length + crypto_sign_BYTES)])

/-- Argument validation of `enif_crypto_sign_open`: signed message as iolist,
public key as a flat binary of `crypto_sign_PUBLICKEYBYTES` bytes. -/
def signOpenCheck : List Term → Option (List Nat × List Nat)
  | [a0, a1] => do
    let sm ← flattenIolist a0
    let pk ← inspectBinary a1
    if pk.length = crypto_sign_PUBLICKEYBYTES then some (sm, pk) else none
  | _ => none

/-- `enif_crypto_sign_open`. -/
def enif_crypto_sign_open (ext : Ext) (args : List Term) : Res × List Event :=
  match signOpenCheck args with
  | none => (.badarg, [])
  | some (sm, pk) =>
    if ext.alloc 0 sm.length then
      match ext.sign_open sm pk with
      | some m =>
        (.bin (subBinary (writeBuf sm.length m) 0 m.length),
          [.alloc sm.length, .prim "crypto_sign_open"])
      | none =>
        (.err "failed_verification", [.alloc sm.length, .prim "crypto_sign_open"])
    else
      (.err "alloc_failed", [.alloc sm.length])

/-- `enif_crypto_secretbox_NONCEBYTES`. -/
def enif_crypto_secretbox_NONCEBYTES (_ext : Ext) (_args : List Term) : Res × List Event :=
  (.int crypto_secretbox_NONCEBYTES, [])

/-- `enif_crypto_secretbox_KEYBYTES`. -/
def enif_crypto_secretbox_KEYBYTES (_ext : Ext) (_args : List Term) : Res × List Event :=
  (.int crypto_secretbox_KEYBYTES, [])

/-- `enif_crypto_secretbox_ZEROBYTES`. -/
def enif_crypto_secretbox_ZEROBYTES (_ext : Ext) (_args : List Term) : Res × List Event :=
  (.int crypto_secretbox_ZEROBYTES, [])

/-- `enif_crypto_secretbox_BOXZEROBYTES`. -/
def enif_crypto_secretbox_BOXZEROBYTES (_ext : Ext) (_args : List Term) : Res × List Event :=
  (.int crypto_secretbox_BOXZEROBYTES, [])

/-- `enif_crypto_stream_KEYBYTES`. -/
def enif_crypto_stream_KEYBYTES (_ext : Ext) (_args : List Term) : Res × List Event :=
  (.int crypto_stream_KEYBYTES, [])

/-- `enif_crypto_stream_NONCEBYTES`. -/
def enif_crypto_stream_NONCEBYTES (_ext : Ext) (_args : List Term) : Res × List Event :=
  (.int crypto_stream_NONCEBYTES, [])

/-- `enif_crypto_auth_BYTES`. -/
def enif_crypto_auth_BYTES (_ext : Ext) (_args : List Term) : Res × List Event :=
  (.int crypto_auth_BYTES, [])

/-- `enif_crypto_auth_KEYBYTES`. -/
def enif_crypto_auth_KEYBYTES (_ext : Ext) (_args : List Term) : Res × List Event :=
  (.int crypto_auth_KEYBYTES, [])

/-- `enif_crypto_onetimeauth_BYTES`. -/
def enif_crypto_onetimeauth_BYTES (_ext : Ext) (_args : List Term) : Res × List Event :=
  (.int crypto_onetimeauth_BYTES, [])

/-- `enif_crypto_onetimeauth_KEYBYTES`. -/
def enif_crypto_onetimeauth_KEYBYTES (_ext : Ext) (_args : List Term) : Res × List Event :=
  (.int crypto_onetimeauth_KEYBYTES, [])

/-- Argument validation of `enif_crypto_secretbox`: padded message as iolist,
then nonce and key as flat binaries of the fixed sizes; the padded message
must be at least `crypto_secretbox_ZEROBYTES` long. -/
def secretboxCheck : List Term → Option (List Nat × List Nat × List Nat)
  | [a0, a1, a2] => do
    let pm ← flattenIolist a0
    let n ← inspectBinary a1
    let k ← inspectBinary a2
    if k.length = crypto_secretbox_KEYBYTES ∧ n.length = crypto_secretbox_NONCEBYTES ∧
        crypto_secretbox_ZEROBYTES ≤ pm.length then
      some (pm, n, k)
    else none
  | _ => none

/-- `enif_crypto_secretbox`. -/
def enif_crypto_secretbox (ext : Ext) (args : List Term) : Res × List Event :=
  match secretboxCheck args with
  | none => (.badarg, [])
  | some (pm, n, k) =>
    if ext.alloc 0 pm.length then
      (.bin (subBinary (writeBuf pm.length (ext.secretbox pm n k))
          crypto_secretbox_BOXZEROBYTES (sub64 pm.length crypto_secretbox_BOXZEROBYTES)),
        [.alloc pm.length, .prim "crypto_secretbox"])
    else
      (.err "alloc_failed", [.alloc pm.length])

/-- Argument validation of `enif_crypto_secretbox_open`: padded ciphertext as
iolist, then nonce and key as flat binaries of the fixed sizes; the padded
ciphertext must be at least `crypto_secretbox_BOXZEROBYTES` long. -/
def secretboxOpenCheck : List Term → Option (List Nat × List Nat × List Nat)
  | [a0, a1, a2] => do
    let ct ← flattenIolist a0
    let n ← inspectBinary a1
    let k ← inspectBinary a2
    if k.length = crypto_secretbox_KEYBYTES ∧ n.length = crypto_secretbox_NONCEBYTES ∧
        crypto_secretbox_BOXZEROBYTES ≤ ct.length then
      some (ct, n, k)
    else none
  | _ => none

/-- `enif_crypto_secretbox_open`. -/
def enif_crypto_secretbox_open (ext : Ext) (args : List Term) : Res × List Event :=
  match secretboxOpenCheck args with
  | none => (.badarg, [])
  | some (ct, n, k) =>
    if ext.alloc 0 ct.length then
      match ext.secretbox_open ct n k with
      | some pt =>
        (.bin (subBinary (writeBuf ct.length pt)
            crypto_secretbox_ZEROBYTES (sub64 ct.length crypto_secretbox_ZEROBYTES)),
          [.alloc ct.length, .prim "crypto_secretbox_open"])
      | none =>
        (.err "failed_verification", [.alloc ct.length, .prim "crypto_secretbox_open"])
    else
      (.err "alloc_failed", [.alloc ct.length])

/-- Argument validation of `enif_crypto_stream`: requested length as an
unsigned 64-bit integer, then nonce and key as flat binaries of the fixed
sizes.  No bound on the requested length beyond the integer type. -/
def streamCheck : List Term → Option (Nat × List Nat × List Nat)
  | [a0, a1, a2] => do
    let clen ← getUInt64 a0
    let n ← inspectBinary a1
    let k ← inspectBinary a2
    if k.length = crypto_stream_KEYBYTES ∧ n.length = crypto_stream_NONCEBYTES then
      some (clen, n, k)
    else none
  | _ => none

/-- `enif_crypto_stream`. -/
def enif_crypto_stream (ext : Ext) (args : List Term) : Res × List Event :=
  match streamCheck args with
  | none => (.badarg, [])
  | some (clen, n, k) =>
    if ext.alloc 0 clen then
      (.bin (writeBuf clen (ext.stream clen n k)), [.alloc clen, .prim "crypto_stream"])
    else
      (.err "alloc_failed", [.alloc clen])

/-- Argument validation of `enif_crypto_stream_xor`: message as iolist, then
nonce and key as flat binaries of the fixed sizes. -/
def streamXorCheck : List Term → Option (List Nat × List Nat × List Nat)
  | [a0, a1, a2] => do
    let m ← flattenIolist a0
    let n ← inspectBinary a1
    let k ← inspectBinary a2
    if k.length = crypto_stream_KEYBYTES ∧ n.length = crypto_stream_NONCEBYTES then
      some (m, n, k)
    else none
  | _ => none

/-- `enif_crypto_stream_xor`. -/
def enif_crypto_stream_xor (ext : Ext) (args : List Term) : Res × List Event :=
  match streamXorCheck args with
  | none => (.badarg, [])
  | some (m, n, k) =>
    if ext.alloc 0 m.length then
      (.bin (writeBuf m.length (ext.stream_xor m n k)),
        [.alloc m.length, .prim "crypto_stream_xor"])
    else
      (.err "alloc_failed", [.alloc m.length])

/-- Argument validation of `enif_crypto_auth`: message as iolist, key as a
flat binary of `crypto_auth_KEYBYTES` bytes. -/
def authCheck : List Term → Option (List Nat × List Nat)
  | [a0, a1] => do
    let m ← flattenIolist a0
    let k ← inspectBinary a1
    if k.length = crypto_auth_KEYBYTES then some (m, k) else none
  | _ => none

/-- `enif_crypto_auth`. -/
def enif_crypto_auth (ext : Ext) (args : List Term) : Res × List Event :=
  match authCheck args with
  | none => (.badarg, [])
  | some (m, k) =>
    if ext.alloc 0 crypto_auth_BYTES then
      (.bin (writeBuf crypto_auth_BYTES (ext.auth m k)),
        [.alloc crypto_auth_BYTES, .prim "crypto_auth"])
    else
      (.err "alloc_failed", [.alloc crypto_auth_BYTES])

/-- Argument validation of `enif_crypto_auth_verify`: authenticator as a flat
binary of `crypto_auth_BYTES` bytes, message as iolist, key as a flat binary
of `crypto_auth_KEYBYTES` bytes. -/
def authVerifyCheck : List Term → Option (List Nat × List Nat × List Nat)
  | [a0, a1, a2] => do
    let a ← inspectBinary a0
    let m ← flattenIolist a1
    let k ← inspectBinary a2
    if k.length = crypto_auth_KEYBYTES ∧ a.length = crypto_auth_BYTES then
      some (a, m, k)
    else none
  | _ => none

/-- `enif_crypto_auth_verify`. -/
def enif_crypto_auth_verify (ext : Ext) (args : List Term) : Res × List Event :=
  match authVerifyCheck args with
  | none => (.badarg, [])
  | some (a, m, k) => (.bool (ext.auth_verify a m k), [.prim "crypto_auth_verify"])

/-- Argument validation of `enif_crypto_onetimeauth`: message as iolist, key
as a flat binary of `crypto_onetimeauth_KEYBYTES` bytes. -/
def onetimeauthCheck : List Term → Option (List Nat × List Nat)
  | [a0, a1] => do
    let m ← flattenIolist a0
    let k ← inspectBinary a1
    if k.length = crypto_onetimeauth_KEYBYTES then some (m, k) else none
  | _ => none

/-- `enif_crypto_onetimeauth`. -/
def enif_crypto_onetimeauth (ext : Ext) (args : List Term) : Res × List Event :=
  match onetimeauthCheck args with
  | none => (.badarg, [])
  | some (m, k) =>
    if ext.alloc 0 crypto_onetimeauth_BYTES then
      (.bin (writeBuf crypto_onetimeauth_BYTES (ext.onetimeauth m k)),
        [.alloc crypto_onetimeauth_BYTES, .prim "crypto_onetimeauth"])
    else
      (.err "alloc_failed", [.alloc crypto_onetimeauth_BYTES])

/-- Argument validation of `enif_crypto_onetimeauth_verify`: authenticator as
a flat binary of `crypto_onetimeauth_BYTES` bytes, message as iolist, key as
a flat binary of `crypto_onetimeauth_KEYBYTES` bytes. -/
def onetimeauthVerifyCheck : List Term → Option (List Nat × List Nat × List Nat)
  | [a0, a1, a2] => do
    let a ← inspectBinary a0
    let m ← flattenIolist a1
    let k ← inspectBinary a2
    if k.length = crypto_onetimeauth_KEYBYTES ∧ a.length = crypto_onetimeauth_BYTES then
      some (a, m, k)
    else none
  | _ => none

/-- `enif_crypto_onetimeauth_verify`. -/
def enif_crypto_onetimeauth_verify (ext : Ext) (args : List Term) : Res × List Event :=
  match onetimeauthVerifyCheck args with
  | none => (.badarg, [])
  | some (a, m, k) =>
    (.bool (ext.onetimeauth_verify a m k), [.prim "crypto_onetimeauth_verify"])

/-! ## The registration table `nif_funcs`

Each C entry of `nif_funcs` is `(erlang name, arity, function pointer,
optional ERL_NIF_DIRTY_JOB_CPU_BOUND flag)`; the flag `dirty = true` marks
the entries that run on the dirty (offload) schedulers, `dirty = false` the
inline (blocking) `_b` variants. -/

/-- One registered NIF: Erlang-visible name, arity, the embedded function,
and whether it is flagged `ERL_NIF_DIRTY_JOB_CPU_BOUND`. -/
structure NifEntry where
  name : String
  arity : Nat
  fptr : Ext → List Term → Res × List Event
  dirty : Bool

/-- The `nif_funcs` registration table of `enacl_nif.c`. -/
def nif_funcs : List NifEntry := [
  ⟨"crypto_box_NONCEBYTES", 0, enif_crypto_box_NONCEBYTES, false⟩,
  ⟨"crypto_box_ZEROBYTES", 0, enif_crypto_box_ZEROBYTES, false⟩,
  ⟨"crypto_box_BOXZEROBYTES", 0, enif_crypto_box_BOXZEROBYTES, false⟩,
  ⟨"crypto_box_PUBLICKEYBYTES", 0, enif_crypto_box_PUBLICKEYBYTES, false⟩,
  ⟨"crypto_box_SECRETKEYBYTES", 0, enif_crypto_box_SECRETKEYBYTES, false⟩,
  ⟨"crypto_box_keypair", 0, enif_crypto_box_keypair, false⟩,
  ⟨"crypto_box_b", 4, enif_crypto_box, false⟩,
  ⟨"crypto_box", 4, enif_crypto_box, true⟩,
  ⟨"crypto_box_open_b", 4, enif_crypto_box_open, false⟩,
  ⟨"crypto_box_open", 4, enif_crypto_box_open, true⟩,
  ⟨"crypto_sign_PUBLICKEYBYTES", 0, enif_crypto_sign_PUBLICKEYBYTES, false⟩,
  ⟨"crypto_sign_SECRETKEYBYTES", 0, enif_crypto_sign_SECRETKEYBYTES, false⟩,
  ⟨"crypto_sign_keypair", 0, enif_crypto_sign_keypair, false⟩,
  ⟨"crypto_sign_b", 2, enif_crypto_sign, false⟩,
  ⟨"crypto_sign", 2, enif_crypto_sign, true⟩,
  ⟨"crypto_sign_open_b", 2, enif_crypto_sign_open, false⟩,
  ⟨"crypto_sign_open", 2, enif_crypto_sign_open, true⟩,
  ⟨"crypto_secretbox_NONCEBYTES", 0, enif_crypto_secretbox_NONCEBYTES, false⟩,
  ⟨"crypto_secretbox_ZEROBYTES", 0, enif_crypto_secretbox_ZEROBYTES, false⟩,
  ⟨"crypto_secretbox_BOXZEROBYTES", 0, enif_crypto_secretbox_BOXZEROBYTES, false⟩,
  ⟨"crypto_secretbox_KEYBYTES", 0, enif_crypto_secretbox_KEYBYTES, false⟩,
  ⟨"crypto_secretbox_b", 3, enif_crypto_secretbox, false⟩,
  ⟨"crypto_secretbox", 3, enif_crypto_secretbox, true⟩,
  ⟨"crypto_secretbox_open_b", 3, enif_crypto_secretbox_open, false⟩,
  ⟨"crypto_secretbox_open", 3, enif_crypto_secretbox_open, true⟩,
  ⟨"crypto_stream_KEYBYTES", 0, enif_crypto_stream_KEYBYTES, false⟩,
  ⟨"crypto_stream_NONCEBYTES", 0, enif_crypto_stream_NONCEBYTES, false⟩,
  ⟨"crypto_stream_b", 3, enif_crypto_stream, false⟩,
  ⟨"crypto_stream", 3, enif_crypto_stream, true⟩,
  ⟨"crypto_stream_xor_b", 3, enif_crypto_stream_xor, false⟩,
  ⟨"crypto_stream_xor", 3, enif_crypto_stream_xor, true⟩,
  ⟨"crypto_auth_BYTES", 0, enif_crypto_auth_BYTES, false⟩,
  ⟨"crypto_auth_KEYBYTES", 0, enif_crypto_auth_KEYBYTES, false⟩,
  ⟨"crypto_auth_b", 2, enif_crypto_auth, false⟩,
  ⟨"crypto_auth", 2, enif_crypto_auth, true⟩,
  ⟨"crypto_auth_verify_b", 3, enif_crypto_auth_verify, false⟩,
  ⟨"crypto_auth_verify", 3, enif_crypto_auth_verify, true⟩,
  ⟨"crypto_onetimeauth_BYTES", 0, enif_crypto_onetimeauth_BYTES, false⟩,
  ⟨"crypto_onetimeauth_KEYBYTES", 0, enif_crypto_onetimeauth_KEYBYTES, false⟩,
  ⟨"crypto_onetimeauth_b", 2, enif_crypto_onetimeauth, false⟩,
  ⟨"crypto_onetimeauth", 2, enif_crypto_onetimeauth, true⟩,
  ⟨"crypto_onetimeauth_verify_b", 3, enif_crypto_onetimeauth_verify, false⟩,
  ⟨"crypto_onetimeauth_verify", 3, enif_crypto_onetimeauth_verify, true⟩,
  ⟨"crypto_hash_b", 1, enif_crypto_hash, false⟩,
  ⟨"crypto_hash", 1, enif_crypto_hash, true⟩,
  ⟨"crypto_verify_16", 2, enif_crypto_verify_16, false⟩,
  ⟨"crypto_verify_32", 2, enif_crypto_verify_32, false⟩]

/-- The first registered entry of a given Erlang name, if any. -/
def lookupFn (tab : List NifEntry) (nm : String) : Option NifEntry :=
  tab.find? (fun e => e.name == nm)

/-- Run the registered entry of the given name on an environment and
argument list. -/
def runEntry (nm : String) (ext : Ext) (args : List Term) :
    Option (Res × List Event) :=
  (lookupFn nif_funcs nm).map (fun e => e.fptr ext args)

/-- The thirteen primitives registered under both an inline `_b` entry and a
dirty-scheduler entry. -/
def dualPrims : List String :=
  ["crypto_box", "crypto_box_open", "crypto_sign", "crypto_sign_open",
    "crypto_secretbox", "crypto_secretbox_open", "crypto_stream",
    "crypto_stream_xor", "crypto_auth", "crypto_auth_verify",
    "crypto_onetimeauth", "crypto_onetimeauth_verify", "crypto_hash"]

/-- A concrete environment used by witnesses: every allocation succeeds and
every primitive returns a fixed output. -/
def extW : Ext where
  alloc := fun _ _ => true
  hash := fun _ => []
  box_keypair := ([], [])
  box := fun _ _ _ _ => []
  box_open := fun _ _ _ _ => some []
  sign_keypair := ([], [])
  sign := fun _ _ => []
  sign_open := fun _ _ => some []
  secretbox := fun _ _ _ => []
  secretbox_open := fun _ _ _ => some []
  stream := fun _ _ _ => []
  stream_xor := fun _ _ _ => []
  auth := fun _ _ => []
  auth_verify := fun _ _ _ => true
  onetimeauth := fun _ _ => []
  onetimeauth_verify := fun _ _ _ => true
  verify_16 := fun _ _ => true
  verify_32 := fun _ _ => true

/-! ## The dispatch layer above the NIF table

The per-call choice between the inline `_b` entry and the dirty entry is
made by the Erlang wrapper module of this repository, which is not part of
`c_src`; it is modelled here from the spec. -/

/-- Modelled from the spec: a Calibration Table entry
`(fixed_cost, per_byte_cost)` for one primitive, in abstract cost units.
The calibration data lives in the Erlang wrapper layer, absent from
`c_src`. -/
structure CalibrationEntry where
  fixed_cost : Nat
  per_byte_cost : Nat

/-- The two execution paths of a dispatched call. -/
inductive Path where
  | Inline
  | Offload
deriving DecidableEq, Repr

/-- Modelled from the spec: the Cost Estimator,
`estimate(primitive, input_length) = fixed_cost + per_byte_cost * input_length`,
pure and total over any `input_length ≥ 0`. -/
def estimate (e : CalibrationEntry) (input_length : Nat) : Nat :=
  e.fixed_cost + e.per_byte_cost * input_length

/-- Modelled from the spec: the Budget Policy,
`classify(cost_units) = Inline` iff `cost_units ≤ BreakoffThreshold`, else
`Offload`; the threshold is a single global scalar. -/
def classify (threshold cost_units : Nat) : Path :=
  if cost_units ≤ threshold then .Inline else .Offload

/-- Modelled from the spec: the Dispatcher routing of one call — estimate
the cost of the input length, then classify it against the global
threshold. -/
def dispatchPath (threshold : Nat) (e : CalibrationEntry) (input_length : Nat) : Path :=
  classify threshold (estimate e input_length)

/-- A concrete environment where every verification primitive rejects;
used by witnesses. -/
def extF : Ext :=
  { extW with
    box_open := fun _ _ _ _ => none
    sign_open := fun _ _ => none
    secretbox_open := fun _ _ _ => none
    auth_verify := fun _ _ _ => false
    onetimeauth_verify := fun _ _ _ => false }

/-- A concrete environment where every allocation fails; used by
witnesses. -/
def extA : Ext := { extW with alloc := fun _ _ => false }

/-- A concrete environment whose open primitives reject every padded
ciphertext shorter than 32 bytes, as the real NaCl primitives do; used by
witnesses. -/
def extO : Ext :=
  { extW with
    secretbox_open := fun ct _ _ => if ct.length < 32 then none else some []
    box_open := fun ct _ _ _ => if ct.length < 32 then none else some [] }

/-! ## Helper lemmas: a failed argument check yields badarg and no events -/

theorem writeBuf_length (size : Nat) (w : List Nat) :
    (writeBuf size w).length = size := by
  simp [writeBuf]

theorem hash_badarg {ext : Ext} {args : List Term} (h : hashCheck args = none) :
    enif_crypto_hash ext args = (.badarg, []) := by
  unfold enif_crypto_hash; rw [h]

theorem verify16_badarg {ext : Ext} {args : List Term} (h : verify16Check args = none) :
    enif_crypto_verify_16 ext args = (.badarg, []) := by
  unfold enif_crypto_verify_16; rw [h]

theorem verify32_badarg {ext : Ext} {args : List Term} (h : verify32Check args = none) :
    enif_crypto_verify_32 ext args = (.badarg, []) := by
  unfold enif_crypto_verify_32; rw [h]

theorem box_badarg {ext : Ext} {args : List Term} (h : boxCheck args = none) :
    enif_crypto_box ext args = (.badarg, []) := by
  unfold enif_crypto_box; rw [h]

theorem box_open_badarg {ext : Ext} {args : List Term} (h : boxOpenCheck args = none) :
    enif_crypto_box_open ext args = (.badarg, []) := by
  unfold enif_crypto_box_open; rw [h]

theorem sign_badarg {ext : Ext} {args : List Term} (h : signCheck args = none) :
    enif_crypto_sign ext args = (.badarg, []) := by
  unfold enif_crypto_sign; rw [h]

theorem sign_open_badarg {ext : Ext} {args : List Term} (h : signOpenCheck args = none) :
    enif_crypto_sign_open ext args = (.badarg, []) := by
  unfold enif_crypto_sign_open; rw [h]

theorem secretbox_badarg {ext : Ext} {args : List Term} (h : secretboxCheck args = none) :
    enif_crypto_secretbox ext args = (.badarg, []) := by
  unfold enif_crypto_secretbox; rw [h]

theorem secretbox_open_badarg {ext : Ext} {args : List Term}
    (h : secretboxOpenCheck args = none) :
    enif_crypto_secretbox_open ext args = (.badarg, []) := by
  unfold enif_crypto_secretbox_open; rw [h]

theorem stream_badarg {ext : Ext} {args : List Term} (h : streamCheck args = none) :
    enif_crypto_stream ext args = (.badarg, []) := by
  unfold enif_crypto_stream; rw [h]

theorem stream_xor_badarg {ext : Ext} {args : List Term} (h : streamXorCheck args = none) :
    enif_crypto_stream_xor ext args = (.badarg, []) := by
  unfold enif_crypto_stream_xor; rw [h]

theorem auth_badarg {ext : Ext} {args : List Term} (h : authCheck args = none) :
    enif_crypto_auth ext args = (.badarg, []) := by
  unfold enif_crypto_auth; rw [h]

theorem auth_verify_badarg {ext : Ext} {args : List Term} (h : authVerifyCheck args = none) :
    enif_crypto_auth_verify ext args = (.badarg, []) := by
  unfold enif_crypto_auth_verify; rw [h]

theorem onetimeauth_badarg {ext : Ext} {args : List Term} (h : onetimeauthCheck args = none) :
    enif_crypto_onetimeauth ext args = (.badarg, []) := by
  unfold enif_crypto_onetimeauth; rw [h]

theorem onetimeauth_verify_badarg {ext : Ext} {args : List Term}
    (h : onetimeauthVerifyCheck args = none) :
    enif_crypto_onetimeauth_verify ext args = (.badarg, []) := by
  unfold enif_crypto_onetimeauth_verify; rw [h]

theorem getUInt64_ofNat {clen : Nat} (h : clen < 2 ^ 64) :
    getUInt64 (Term.int (clen : Int)) = some clen := by
  have h1 : (0 : Int) ≤ (clen : Int) ∧ ((clen : Int) : Int) < 2 ^ 64 := by
    constructor <;> omega
  simp [getUInt64, h1]
  omega

theorem box_keypair_badarg {ext : Ext} {args : List Term} (h : args ≠ []) :
    enif_crypto_box_keypair ext args = (.badarg, []) := by
  cases args with
  | nil => exact absurd rfl h
  | cons a l => rfl

theorem sign_keypair_badarg {ext : Ext} {args : List Term} (h : args ≠ []) :
    enif_crypto_sign_keypair ext args = (.badarg, []) := by
  cases args with
  | nil => exact absurd rfl h
  | cons a l => rfl

/-! ## Helper lemmas for the iolist/flat-binary discipline -/

theorem flattenIolist_bin (bs : List Nat) :
    flattenIolist (Term.bin bs) = some bs := rfl

theorem inspectBinary_eq_none {t : Term} (h : ∀ bs, t ≠ Term.bin bs) :
    inspectBinary t = none := by
  cases t with
  | bin bs => exact absurd rfl (h bs)
  | int n => rfl
  | lst ts => rfl
  | atm s => rfl

theorem hashCheck_iolist {t : Term} {bs : List Nat}
    (h : flattenIolist t = some bs) :
    hashCheck [t] = hashCheck [Term.bin bs] := by
  simp [hashCheck, h, flattenIolist_bin]

theorem boxCheck_iolist {t : Term} {bs : List Nat}
    (h : flattenIolist t = some bs) (a1 a2 a3 : Term) :
    boxCheck [t, a1, a2, a3] = boxCheck [Term.bin bs, a1, a2, a3] := by
  simp [boxCheck, h, flattenIolist_bin]

theorem boxOpenCheck_iolist {t : Term} {bs : List Nat}
    (h : flattenIolist t = some bs) (a1 a2 a3 : Term) :
    boxOpenCheck [t, a1, a2, a3] = boxOpenCheck [Term.bin bs, a1, a2, a3] := by
  simp [boxOpenCheck, h, flattenIolist_bin]

theorem signCheck_iolist {t : Term} {bs : List Nat}
    (h : flattenIolist t = some bs) (a1 : Term) :
    signCheck [t, a1] = signCheck [Term.bin bs, a1] := by
  simp [signCheck, h, flattenIolist_bin]

theorem signOpenCheck_iolist {t : Term} {bs : List Nat}
    (h : flattenIolist t = some bs) (a1 : Term) :
    signOpenCheck [t, a1] = signOpenCheck [Term.bin bs, a1] := by
  simp [signOpenCheck, h, flattenIolist_bin]

theorem secretboxCheck_iolist {t : Term} {bs : List Nat}
    (h : flattenIolist t = some bs) (a1 a2 : Term) :
    secretboxCheck [t, a1, a2] = secretboxCheck [Term.bin bs, a1, a2] := by
  simp [secretboxCheck, h, flattenIolist_bin]

theorem secretboxOpenCheck_iolist {t : Term} {bs : List Nat}
    (h : flattenIolist t = some bs) (a1 a2 : Term) :
    secretboxOpenCheck [t, a1, a2] = secretboxOpenCheck [Term.bin bs, a1, a2] := by
  simp [secretboxOpenCheck, h, flattenIolist_bin]

theorem streamXorCheck_iolist {t : Term} {bs : List Nat}
    (h : flattenIolist t = some bs) (a1 a2 : Term) :
    streamXorCheck [t, a1, a2] = streamXorCheck [Term.bin bs, a1, a2] := by
  simp [streamXorCheck, h, flattenIolist_bin]

theorem authCheck_iolist {t : Term} {bs : List Nat}
    (h : flattenIolist t = some bs) (a1 : Term) :
    authCheck [t, a1] = authCheck [Term.bin bs, a1] := by
  simp [authCheck, h, flattenIolist_bin]

theorem authVerifyCheck_iolist (a0 : Term) {t : Term} {bs : List Nat}
    (h : flattenIolist t = some bs) (a2 : Term) :
    authVerifyCheck [a0, t, a2] = authVerifyCheck [a0, Term.bin bs, a2] := by
  simp [authVerifyCheck, h, flattenIolist_bin]

theorem onetimeauthCheck_iolist {t : Term} {bs : List Nat}
    (h : flattenIolist t = some bs) (a1 : Term) :
    onetimeauthCheck [t, a1] = onetimeauthCheck [Term.bin bs, a1] := by
  simp [onetimeauthCheck, h, flattenIolist_bin]

theorem onetimeauthVerifyCheck_iolist (a0 : Term) {t : Term} {bs : List Nat}
    (h : flattenIolist t = some bs) (a2 : Term) :
    onetimeauthVerifyCheck [a0, t, a2] =
      onetimeauthVerifyCheck [a0, Term.bin bs, a2] := by
  simp [onetimeauthVerifyCheck, h, flattenIolist_bin]

theorem boxCheck_nonce_nonbin (a0 : Term) {t : Term}
    (h : inspectBinary t = none) (a2 a3 : Term) :
    boxCheck [a0, t, a2, a3] = none := by
  cases hm : flattenIolist a0 <;> simp [boxCheck, hm, h]

theorem boxCheck_pk_nonbin (a0 a1 : Term) {t : Term}
    (h : inspectBinary t = none) (a3 : Term) :
    boxCheck [a0, a1, t, a3] = none := by
  cases hm : flattenIolist a0 <;> cases h1 : inspectBinary a1 <;>
    simp [boxCheck, hm, h1, h]

theorem boxCheck_sk_nonbin (a0 a1 a2 : Term) {t : Term}
    (h : inspectBinary t = none) :
    boxCheck [a0, a1, a2, t] = none := by
  cases hm : flattenIolist a0 <;> cases h1 : inspectBinary a1 <;>
    cases h2 : inspectBinary a2 <;> simp [boxCheck, hm, h1, h2, h]

theorem boxOpenCheck_nonce_nonbin (a0 : Term) {t : Term}
    (h : inspectBinary t = none) (a2 a3 : Term) :
    boxOpenCheck [a0, t, a2, a3] = none := by
  cases hm : flattenIolist a0 <;> simp [boxOpenCheck, hm, h]

theorem boxOpenCheck_pk_nonbin (a0 a1 : Term) {t : Term}
    (h : inspectBinary t = none) (a3 : Term) :
    boxOpenCheck [a0, a1, t, a3] = none := by
  cases hm : flattenIolist a0 <;> cases h1 : inspectBinary a1 <;>
    simp [boxOpenCheck, hm, h1, h]

theorem boxOpenCheck_sk_nonbin (a0 a1 a2 : Term) {t : Term}
    (h : inspectBinary t = none) :
    boxOpenCheck [a0, a1, a2, t] = none := by
  cases hm : flattenIolist a0 <;> cases h1 : inspectBinary a1 <;>
    cases h2 : inspectBinary a2 <;> simp [boxOpenCheck, hm, h1, h2, h]

theorem signCheck_sk_nonbin (a0 : Term) {t : Term}
    (h : inspectBinary t = none) :
    signCheck [a0, t] = none := by
  cases hm : flattenIolist a0 <;> simp [signCheck, hm, h]

theorem signOpenCheck_pk_nonbin (a0 : Term) {t : Term}
    (h : inspectBinary t = none) :
    signOpenCheck [a0, t] = none := by
  cases hm : flattenIolist a0 <;> simp [signOpenCheck, hm, h]

theorem secretboxCheck_nonce_nonbin (a0 : Term) {t : Term}
    (h : inspectBinary t = none) (a2 : Term) :
    secretboxCheck [a0, t, a2] = none := by
  cases hm : flattenIolist a0 <;> simp [secretboxCheck, hm, h]

theorem secretboxCheck_key_nonbin (a0 a1 : Term) {t : Term}
    (h : inspectBinary t = none) :
    secretboxCheck [a0, a1, t] = none := by
  cases hm : flattenIolist a0 <;> cases h1 : inspectBinary a1 <;>
    simp [secretboxCheck, hm, h1, h]

theorem secretboxOpenCheck_nonce_nonbin (a0 : Term) {t : Term}
    (h : inspectBinary t = none) (a2 : Term) :
    secretboxOpenCheck [a0, t, a2] = none := by
  cases hm : flattenIolist a0 <;> simp [secretboxOpenCheck, hm, h]

theorem secretboxOpenCheck_key_nonbin (a0 a1 : Term) {t : Term}
    (h : inspectBinary t = none) :
    secretboxOpenCheck [a0, a1, t] = none := by
  cases hm : flattenIolist a0 <;> cases h1 : inspectBinary a1 <;>
    simp [secretboxOpenCheck, hm, h1, h]

theorem streamCheck_nonce_nonbin (a0 : Term) {t : Term}
    (h : inspectBinary t = none) (a2 : Term) :
    streamCheck [a0, t, a2] = none := by
  cases hg : getUInt64 a0 <;> simp [streamCheck, hg, h]

theorem streamCheck_key_nonbin (a0 a1 : Term) {t : Term}
    (h : inspectBinary t = none) :
    streamCheck [a0, a1, t] = none := by
  cases hg : getUInt64 a0 <;> cases h1 : inspectBinary a1 <;>
    simp [streamCheck, hg, h1, h]

theorem streamXorCheck_nonce_nonbin (a0 : Term) {t : Term}
    (h : inspectBinary t = none) (a2 : Term) :
    streamXorCheck [a0, t, a2] = none := by
  cases hm : flattenIolist a0 <;> simp [streamXorCheck, hm, h]

theorem streamXorCheck_key_nonbin (a0 a1 : Term) {t : Term}
    (h : inspectBinary t = none) :
    streamXorCheck [a0, a1, t] = none := by
  cases hm : flattenIolist a0 <;> cases h1 : inspectBinary a1 <;>
    simp [streamXorCheck, hm, h1, h]

theorem authCheck_key_nonbin (a0 : Term) {t : Term}
    (h : inspectBinary t = none) :
    authCheck [a0, t] = none := by
  cases hm : flattenIolist a0 <;> simp [authCheck, hm, h]

theorem authVerifyCheck_tag_nonbin {t : Term}
    (h : inspectBinary t = none) (a1 a2 : Term) :
    authVerifyCheck [t, a1, a2] = none := by
  simp [authVerifyCheck, h]

theorem authVerifyCheck_key_nonbin (a0 a1 : Term) {t : Term}
    (h : inspectBinary t = none) :
    authVerifyCheck [a0, a1, t] = none := by
  cases h0 : inspectBinary a0 <;> cases hm : flattenIolist a1 <;>
    simp [authVerifyCheck, h0, hm, h]

theorem onetimeauthCheck_key_nonbin (a0 : Term) {t : Term}
    (h : inspectBinary t = none) :
    onetimeauthCheck [a0, t] = none := by
  cases hm : flattenIolist a0 <;> simp [onetimeauthCheck, hm, h]

theorem onetimeauthVerifyCheck_tag_nonbin {t : Term}
    (h : inspectBinary t = none) (a1 a2 : Term) :
    onetimeauthVerifyCheck [t, a1, a2] = none := by
  simp [onetimeauthVerifyCheck, h]

theorem onetimeauthVerifyCheck_key_nonbin (a0 a1 : Term) {t : Term}
    (h : inspectBinary t = none) :
    onetimeauthVerifyCheck [a0, a1, t] = none := by
  cases h0 : inspectBinary a0 <;> cases hm : flattenIolist a1 <;>
    simp [onetimeauthVerifyCheck, h0, hm, h]

/-! ## Claim theorems -/

/-- C1: for every primitive registered under both execution paths (box,
box_open, sign, sign_open, secretbox, secretbox_open, stream, stream_xor,
auth, auth_verify, onetimeauth, onetimeauth_verify, hash) and every
environment and input, the inline entry (`name_b`, Direct) and the dirty
entry (`name`, Offload) of `nif_funcs` compute the same function: identical
results on success and identical failure values on failure. -/
theorem direct_offload_equiv :
    ∀ nm ∈ dualPrims, ∀ (ext : Ext) (args : List Term),
      runEntry (nm ++ "_b") ext args = runEntry nm ext args := by
  intro nm hnm ext args
  fin_cases hnm <;> rfl

/-- Witness for C1 at the `crypto_hash` primitive on a concrete input. -/
theorem direct_offload_equiv_witness :
    runEntry ("crypto_hash" ++ "_b") extW [Term.bin [1, 2, 3]] =
      runEntry "crypto_hash" extW [Term.bin [1, 2, 3]] :=
  direct_offload_equiv "crypto_hash" (by decide) extW [Term.bin [1, 2, 3]]

/-- C2: whenever the argument check of an operation fails — wrong arity, an
argument that cannot be inspected, a wrong key/nonce/authenticator length,
or a padded message/ciphertext shorter than the required minimum padding —
the call returns badarg synchronously, with an empty event trace: no output
buffer is allocated and the external cryptographic primitive is never
executed. -/
theorem contract_violation_rejected :
    (∀ (ext : Ext) (args : List Term), secretboxCheck args = none →
        enif_crypto_secretbox ext args = (.badarg, [])) ∧
    (∀ (ext : Ext) (args : List Term), secretboxOpenCheck args = none →
        enif_crypto_secretbox_open ext args = (.badarg, [])) ∧
    (∀ (ext : Ext) (args : List Term), hashCheck args = none →
        enif_crypto_hash ext args = (.badarg, [])) ∧
    (∀ (ext : Ext) (args : List Term), verify16Check args = none →
        enif_crypto_verify_16 ext args = (.badarg, [])) ∧
    (∀ (ext : Ext) (args : List Term), verify32Check args = none →
        enif_crypto_verify_32 ext args = (.badarg, [])) ∧
    (∀ (ext : Ext) (args : List Term), args ≠ [] →
        enif_crypto_box_keypair ext args = (.badarg, [])) ∧
    (∀ (ext : Ext) (args : List Term), boxCheck args = none →
        enif_crypto_box ext args = (.badarg, [])) ∧
    (∀ (ext : Ext) (args : List Term), boxOpenCheck args = none →
        enif_crypto_box_open ext args = (.badarg, [])) ∧
    (∀ (ext : Ext) (args : List Term), args ≠ [] →
        enif_crypto_sign_keypair ext args = (.badarg, [])) ∧
    (∀ (ext : Ext) (args : List Term), signCheck args = none →
        enif_crypto_sign ext args = (.badarg, [])) ∧
    (∀ (ext : Ext) (args : List Term), signOpenCheck args = none →
        enif_crypto_sign_open ext args = (.badarg, [])) ∧
    (∀ (ext : Ext) (args : List Term), streamCheck args = none →
        enif_crypto_stream ext args = (.badarg, [])) ∧
    (∀ (ext : Ext) (args : List Term), streamXorCheck args = none →
        enif_crypto_stream_xor ext args = (.badarg, [])) ∧
    (∀ (ext : Ext) (args : List Term), authCheck args = none →
        enif_crypto_auth ext args = (.badarg, [])) ∧
    (∀ (ext : Ext) (args : List Term), authVerifyCheck args = none →
        enif_crypto_auth_verify ext args = (.badarg, [])) ∧
    (∀ (ext : Ext) (args : List Term), onetimeauthCheck args = none →
        enif_crypto_onetimeauth ext args = (.badarg, [])) ∧
    (∀ (ext : Ext) (args : List Term), onetimeauthVerifyCheck args = none →
        enif_crypto_onetimeauth_verify ext args = (.badarg, [])) :=
  ⟨fun _ _ h => secretbox_badarg h, fun _ _ h => secretbox_open_badarg h,
    fun _ _ h => hash_badarg h, fun _ _ h => verify16_badarg h,
    fun _ _ h => verify32_badarg h, fun _ _ h => box_keypair_badarg h,
    fun _ _ h => box_badarg h, fun _ _ h => box_open_badarg h,
    fun _ _ h => sign_keypair_badarg h, fun _ _ h => sign_badarg h,
    fun _ _ h => sign_open_badarg h, fun _ _ h => stream_badarg h,
    fun _ _ h => stream_xor_badarg h, fun _ _ h => auth_badarg h,
    fun _ _ h => auth_verify_badarg h, fun _ _ h => onetimeauth_badarg h,
    fun _ _ h => onetimeauth_verify_badarg h⟩

/-- Witness for C2: a secretbox call with a 31-byte key (instead of 32) is
rejected as badarg with no external effect. -/
theorem contract_violation_rejected_witness :
    enif_crypto_secretbox extW
      [Term.bin (List.replicate 32 0), Term.bin (List.replicate 24 0),
        Term.bin (List.replicate 31 0)] = (.badarg, []) :=
  contract_violation_rejected.1 extW
    [Term.bin (List.replicate 32 0), Term.bin (List.replicate 24 0),
      Term.bin (List.replicate 31 0)] (by decide)

/-- C3: for box_open, secretbox_open and sign_open, whenever the arguments
pass size validation and the output buffer is allocated but the external
verification fails — no matter why — the call returns the single constant
value (error, failed_verification), which is distinct from badarg and from
every success binary. -/
theorem verification_failure_first_class :
    (∀ (ext : Ext) (args : List Term) (ct n k : List Nat),
        secretboxOpenCheck args = some (ct, n, k) →
        ext.alloc 0 ct.length = true →
        ext.secretbox_open ct n k = none →
        enif_crypto_secretbox_open ext args =
          (.err "failed_verification",
            [.alloc ct.length, .prim "crypto_secretbox_open"])) ∧
    (∀ (ext : Ext) (args : List Term) (ct n pk sk : List Nat),
        boxOpenCheck args = some (ct, n, pk, sk) →
        ext.alloc 0 ct.length = true →
        ext.box_open ct n pk sk = none →
        enif_crypto_box_open ext args =
          (.err "failed_verification",
            [.alloc ct.length, .prim "crypto_box_open"])) ∧
    (∀ (ext : Ext) (args : List Term) (sm pk : List Nat),
        signOpenCheck args = some (sm, pk) →
        ext.alloc 0 sm.length = true →
        ext.sign_open sm pk = none →
        enif_crypto_sign_open ext args =
          (.err "failed_verification",
            [.alloc sm.length, .prim "crypto_sign_open"])) ∧
    Res.err "failed_verification" ≠ Res.badarg ∧
    (∀ bs : List Nat, Res.err "failed_verification" ≠ Res.bin bs) := by
  refine ⟨?_, ?_, ?_, by simp, by simp⟩
  · intro ext args ct n k hc ha ho
    unfold enif_crypto_secretbox_open
    rw [hc]; simp [ha, ho]
  · intro ext args ct n pk sk hc ha ho
    unfold enif_crypto_box_open
    rw [hc]; simp [ha, ho]
  · intro ext args sm pk hc ha ho
    unfold enif_crypto_sign_open
    rw [hc]; simp [ha, ho]

/-- Witness for C3: a well-formed secretbox_open call in an environment
whose secretbox verification rejects yields the failed_verification
value. -/
theorem verification_failure_first_class_witness :
    enif_crypto_secretbox_open extF
      [Term.bin (List.replicate 32 1), Term.bin (List.replicate 24 0),
        Term.bin (List.replicate 32 0)] =
      (.err "failed_verification",
        [.alloc (List.replicate 32 1).length, .prim "crypto_secretbox_open"]) :=
  verification_failure_first_class.1 extF
    [Term.bin (List.replicate 32 1), Term.bin (List.replicate 24 0),
      Term.bin (List.replicate 32 0)]
    (List.replicate 32 1) (List.replicate 24 0) (List.replicate 32 0)
    (by decide) (by decide) rfl

/-- C4: for every call, the estimated cost is
`fixed_cost + per_byte_cost * input_length`, the call is routed inline
exactly when that estimate is at most the single global breakoff threshold,
and offloaded exactly when the estimate exceeds it. -/
theorem dispatch_inline_iff_below_threshold :
    ∀ (threshold : Nat) (e : CalibrationEntry) (len : Nat),
      estimate e len = e.fixed_cost + e.per_byte_cost * len ∧
      (dispatchPath threshold e len = Path.Inline ↔ estimate e len ≤ threshold) ∧
      (dispatchPath threshold e len = Path.Offload ↔ threshold < estimate e len) := by
  intro threshold e len
  rcases le_or_lt (estimate e len) threshold with h | h
  · exact ⟨rfl, by simp [dispatchPath, classify, h, Nat.not_lt.mpr h]⟩
  · exact ⟨rfl, by simp [dispatchPath, classify, Nat.not_le.mpr h, h]⟩

/-- C5 counterexample: the NIF table registers two distinct entry points for
the box primitive — the names differ, both are present, and both are bound
to the box function — so a caller of the NIF layer is given two entry points
per primitive, not one. -/
theorem single_entry_point_counterexample :
    (lookupFn nif_funcs "crypto_box_b").map NifEntry.fptr = some enif_crypto_box ∧
    (lookupFn nif_funcs "crypto_box").map NifEntry.fptr = some enif_crypto_box ∧
    "crypto_box_b" ≠ "crypto_box" :=
  ⟨rfl, rfl, by decide⟩

/-- C5 (amended): for every dual-registered primitive the NIF table exposes
two entry points — an inline variant suffixed `_b` without the dirty flag
and an offload variant carrying the dirty flag — both bound to the same
function; the single logical entry point per operation exists only in the
wrapper layer above the table. -/
theorem dual_registration (nm : String) (h : nm ∈ dualPrims) :
    ∃ e1 e2 : NifEntry,
      lookupFn nif_funcs (nm ++ "_b") = some e1 ∧
      lookupFn nif_funcs nm = some e2 ∧
      e1.fptr = e2.fptr ∧ e1.dirty = false ∧ e2.dirty = true := by
  fin_cases h <;> exact ⟨_, _, rfl, rfl, rfl, rfl, rfl⟩

/-- Witness for the amended C5 at the box primitive. -/
theorem dual_registration_witness :
    ∃ e1 e2 : NifEntry,
      lookupFn nif_funcs ("crypto_box" ++ "_b") = some e1 ∧
      lookupFn nif_funcs "crypto_box" = some e2 ∧
      e1.fptr = e2.fptr ∧ e1.dirty = false ∧ e2.dirty = true :=
  dual_registration "crypto_box" (by decide)

/-- C6: for every operation that allocates an output buffer, if the
allocation fails the call returns the distinguishable value
(error, alloc_failed); its event trace contains exactly the failed
allocation attempts — no external primitive invocation and no repeated
attempt at the same allocation. -/
theorem alloc_failure_distinguishable :
    (∀ (ext : Ext) (args : List Term) (input : List Nat),
        hashCheck args = some input → ext.alloc 0 crypto_hash_BYTES = false →
        enif_crypto_hash ext args =
          (.err "alloc_failed", [.alloc crypto_hash_BYTES])) ∧
    (∀ ext : Ext, ext.alloc 0 crypto_box_PUBLICKEYBYTES = false →
        enif_crypto_box_keypair ext [] =
          (.err "alloc_failed", [.alloc crypto_box_PUBLICKEYBYTES])) ∧
    (∀ ext : Ext, ext.alloc 0 crypto_box_PUBLICKEYBYTES = true →
        ext.alloc 1 crypto_box_SECRETKEYBYTES = false →
        enif_crypto_box_keypair ext [] =
          (.err "alloc_failed",
            [.alloc crypto_box_PUBLICKEYBYTES, .alloc crypto_box_SECRETKEYBYTES])) ∧
    (∀ ext : Ext, ext.alloc 0 crypto_sign_PUBLICKEYBYTES = false →
        enif_crypto_sign_keypair ext [] =
          (.err "alloc_failed", [.alloc crypto_sign_PUBLICKEYBYTES])) ∧
    (∀ ext : Ext, ext.alloc 0 crypto_sign_PUBLICKEYBYTES = true →
        ext.alloc 1 crypto_sign_SECRETKEYBYTES = false →
        enif_crypto_sign_keypair ext [] =
          (.err "alloc_failed",
            [.alloc crypto_sign_PUBLICKEYBYTES, .alloc crypto_sign_SECRETKEYBYTES])) ∧
    (∀ (ext : Ext) (args : List Term) (pm n pk sk : List Nat),
        boxCheck args = some (pm, n, pk, sk) → ext.alloc 0 pm.length = false →
        enif_crypto_box ext args = (.err "alloc_failed", [.alloc pm.length])) ∧
    (∀ (ext : Ext) (args : List Term) (ct n pk sk : List Nat),
        boxOpenCheck args = some (ct, n, pk, sk) → ext.alloc 0 ct.length = false →
        enif_crypto_box_open ext args = (.err "alloc_failed", [.alloc ct.length])) ∧
    (∀ (ext : Ext) (args : List Term) (m sk : List Nat),
        signCheck args = some (m, sk) →
        ext.alloc 0 (m.length + crypto_sign_BYTES) = false →
        enif_crypto_sign ext args =
          (.err "alloc_failed", [.alloc (m.length + crypto_sign_BYTES)])) ∧
    (∀ (ext : Ext) (args : List Term) (sm pk : List Nat),
        signOpenCheck args = some (sm, pk) → ext.alloc 0 sm.length = false →
        enif_crypto_sign_open ext args = (.err "alloc_failed", [.alloc sm.length])) ∧
    (∀ (ext : Ext) (args : List Term) (pm n k : List Nat),
        secretboxCheck args = some (pm, n, k) → ext.alloc 0 pm.length = false →
        enif_crypto_secretbox ext args = (.err "alloc_failed", [.alloc pm.length])) ∧
    (∀ (ext : Ext) (args : List Term) (ct n k : List Nat),
        secretboxOpenCheck args = some (ct, n, k) → ext.alloc 0 ct.length = false →
        enif_crypto_secretbox_open ext args =
          (.err "alloc_failed", [.alloc ct.length])) ∧
    (∀ (ext : Ext) (args : List Term) (clen : Nat) (n k : List Nat),
        streamCheck args = some (clen, n, k) → ext.alloc 0 clen = false →
        enif_crypto_stream ext args = (.err "alloc_failed", [.alloc clen])) ∧
    (∀ (ext : Ext) (args : List Term) (m n k : List Nat),
        streamXorCheck args = some (m, n, k) → ext.alloc 0 m.length = false →
        enif_crypto_stream_xor ext args = (.err "alloc_failed", [.alloc m.length])) ∧
    (∀ (ext : Ext) (args : List Term) (m k : List Nat),
        authCheck args = some (m, k) → ext.alloc 0 crypto_auth_BYTES = false →
        enif_crypto_auth ext args =
          (.err "alloc_failed", [.alloc crypto_auth_BYTES])) ∧
    (∀ (ext : Ext) (args : List Term) (m k : List Nat),
        onetimeauthCheck args = some (m, k) →
        ext.alloc 0 crypto_onetimeauth_BYTES = false →
        enif_crypto_onetimeauth ext args =
          (.err "alloc_failed", [.alloc crypto_onetimeauth_BYTES])) := by
  refine ⟨?_, ?_, ?_, ?_, ?_, ?_, ?_, ?_, ?_, ?_, ?_, ?_, ?_, ?_, ?_⟩
  · intro ext args input hc ha
    unfold enif_crypto_hash; rw [hc]; simp [ha]
  · intro ext ha
    unfold enif_crypto_box_keypair; simp [ha]
  · intro ext h0 h1
    unfold enif_crypto_box_keypair; simp [h0, h1]
  · intro ext ha
    unfold enif_crypto_sign_keypair; simp [ha]
  · intro ext h0 h1
    unfold enif_crypto_sign_keypair; simp [h0, h1]
  · intro ext args pm n pk sk hc ha
    unfold enif_crypto_box; rw [hc]; simp [ha]
  · intro ext args ct n pk sk hc ha
    unfold enif_crypto_box_open; rw [hc]; simp [ha]
  · intro ext args m sk hc ha
    unfold enif_crypto_sign; rw [hc]; simp [ha]
  · intro ext args sm pk hc ha
    unfold enif_crypto_sign_open; rw [hc]; simp [ha]
  · intro ext args pm n k hc ha
    unfold enif_crypto_secretbox; rw [hc]; simp [ha]
  · intro ext args ct n k hc ha
    unfold enif_crypto_secretbox_open; rw [hc]; simp [ha]
  · intro ext args clen n k hc ha
    unfold enif_crypto_stream; rw [hc]; simp [ha]
  · intro ext args m n k hc ha
    unfold enif_crypto_stream_xor; rw [hc]; simp [ha]
  · intro ext args m k hc ha
    unfold enif_crypto_auth; rw [hc]; simp [ha]
  · intro ext args m k hc ha
    unfold enif_crypto_onetimeauth; rw [hc]; simp [ha]

/-- Witness for C6: a hash call in an environment whose allocator fails
returns (error, alloc_failed) after a single allocation attempt and no
primitive invocation. -/
theorem alloc_failure_distinguishable_witness :
    enif_crypto_hash extA [Term.bin [1, 2, 3]] =
      (.err "alloc_failed", [.alloc crypto_hash_BYTES]) :=
  alloc_failure_distinguishable.1 extA [Term.bin [1, 2, 3]] [1, 2, 3]
    (by decide) rfl

/-- C8: in an environment where the external open primitives reject every
padded ciphertext shorter than ZEROBYTES (32), enif_crypto_secretbox_open
and enif_crypto_box_open never produce a success binary from a padded
ciphertext shorter than 32 bytes — even though their own guard only
requires 16 — so the sub-binary length `size - ZEROBYTES` is an exact,
non-wrapping subtraction. -/
theorem open_success_no_underflow :
    ∀ ext : Ext,
      (∀ ct n k : List Nat, ct.length < crypto_secretbox_ZEROBYTES →
          ext.secretbox_open ct n k = none) →
      (∀ ct n pk sk : List Nat, ct.length < crypto_box_ZEROBYTES →
          ext.box_open ct n pk sk = none) →
      (∀ (args : List Term) (bs : List Nat) (tr : List Event),
          enif_crypto_secretbox_open ext args = (.bin bs, tr) →
          ∃ ct n k : List Nat, secretboxOpenCheck args = some (ct, n, k) ∧
            crypto_secretbox_ZEROBYTES ≤ ct.length ∧
            sub64 ct.length crypto_secretbox_ZEROBYTES =
              ct.length - crypto_secretbox_ZEROBYTES ∧
            bs.length = ct.length - crypto_secretbox_ZEROBYTES) ∧
      (∀ (args : List Term) (bs : List Nat) (tr : List Event),
          enif_crypto_box_open ext args = (.bin bs, tr) →
          ∃ ct n pk sk : List Nat, boxOpenCheck args = some (ct, n, pk, sk) ∧
            crypto_box_ZEROBYTES ≤ ct.length ∧
            sub64 ct.length crypto_box_ZEROBYTES =
              ct.length - crypto_box_ZEROBYTES ∧
            bs.length = ct.length - crypto_box_ZEROBYTES) := by
  intro ext hsf hbf
  constructor
  · intro args bs tr h
    unfold enif_crypto_secretbox_open at h
    rcases hco : secretboxOpenCheck args with _ | ⟨ct, n, k⟩ <;> rw [hco] at h
    · simp at h
    · by_cases halloc : ext.alloc 0 ct.length = true
      · rcases hop : ext.secretbox_open ct n k with _ | pt <;>
          simp [halloc, hop] at h
        obtain ⟨hbs, -⟩ := h
        have h32 : crypto_secretbox_ZEROBYTES ≤ ct.length := by
          by_contra hlt
          rw [hsf ct n k (Nat.lt_of_not_le hlt)] at hop
          exact Option.noConfusion hop
        have hsub : sub64 ct.length crypto_secretbox_ZEROBYTES =
            ct.length - crypto_secretbox_ZEROBYTES := by
          simp [sub64, h32]
        refine ⟨ct, n, k, rfl, h32, hsub, ?_⟩
        rw [← hbs, hsub]
        simp only [subBinary, writeBuf, List.length_take, List.length_drop,
          List.length_append, List.length_replicate]
        omega
      · simp [halloc] at h
  · intro args bs tr h
    unfold enif_crypto_box_open at h
    rcases hco : boxOpenCheck args with _ | ⟨ct, n, pk, sk⟩ <;> rw [hco] at h
    · simp at h
    · by_cases halloc : ext.alloc 0 ct.length = true
      · rcases hop : ext.box_open ct n pk sk with _ | pt <;>
          simp [halloc, hop] at h
        obtain ⟨hbs, -⟩ := h
        have h32 : crypto_box_ZEROBYTES ≤ ct.length := by
          by_contra hlt
          rw [hbf ct n pk sk (Nat.lt_of_not_le hlt)] at hop
          exact Option.noConfusion hop
        have hsub : sub64 ct.length crypto_box_ZEROBYTES =
            ct.length - crypto_box_ZEROBYTES := by
          simp [sub64, h32]
        refine ⟨ct, n, pk, sk, rfl, h32, hsub, ?_⟩
        rw [← hbs, hsub]
        simp only [subBinary, writeBuf, List.length_take, List.length_drop,
          List.length_append, List.length_replicate]
        omega
      · simp [halloc] at h

theorem enif_crypto_stream_run {ext : Ext} {args : List Term} {clen : Nat}
    {n k : List Nat} (hc : streamCheck args = some (clen, n, k))
    (ha : ext.alloc 0 clen = true) :
    enif_crypto_stream ext args =
      (.bin (writeBuf clen (ext.stream clen n k)),
        [.alloc clen, .prim "crypto_stream"]) := by
  unfold enif_crypto_stream
  rw [hc]; simp [ha]

theorem streamCheck_int {clen : Nat} {n k : List Nat}
    (hlt : clen < 2 ^ 64) (hn : n.length = crypto_stream_NONCEBYTES)
    (hk : k.length = crypto_stream_KEYBYTES) :
    streamCheck [Term.int (clen : Int), Term.bin n, Term.bin k] =
      some (clen, n, k) := by
  simp [streamCheck, getUInt64_ofNat hlt, inspectBinary, hn, hk]

theorem enif_crypto_stream_xor_run {ext : Ext} {args : List Term}
    {m n k : List Nat} (hc : streamXorCheck args = some (m, n, k))
    (ha : ext.alloc 0 m.length = true) :
    enif_crypto_stream_xor ext args =
      (.bin (writeBuf m.length (ext.stream_xor m n k)),
        [.alloc m.length, .prim "crypto_stream_xor"]) := by
  unfold enif_crypto_stream_xor
  rw [hc]; simp [ha]

theorem streamXorCheck_parts {t : Term} {m n k : List Nat}
    (hm : flattenIolist t = some m) (hn : n.length = crypto_stream_NONCEBYTES)
    (hk : k.length = crypto_stream_KEYBYTES) :
    streamXorCheck [t, Term.bin n, Term.bin k] = some (m, n, k) := by
  simp [streamXorCheck, hm, inspectBinary, hn, hk]

theorem extO_secretbox_open_short :
    ∀ ct n k : List Nat, ct.length < crypto_secretbox_ZEROBYTES →
      extO.secretbox_open ct n k = none :=
  fun ct n k h => by
    simp [crypto_secretbox_ZEROBYTES] at h; simp [extO, h]

theorem extO_box_open_short :
    ∀ ct n pk sk : List Nat, ct.length < crypto_box_ZEROBYTES →
      extO.box_open ct n pk sk = none :=
  fun ct n pk sk h => by
    simp [crypto_box_ZEROBYTES] at h; simp [extO, h]

theorem extO_secretbox_open_forty :
    enif_crypto_secretbox_open extO
        [Term.bin (List.replicate 40 7), Term.bin (List.replicate 24 0),
          Term.bin (List.replicate 32 0)] =
      (.bin (List.replicate 8 0), [.alloc 40, .prim "crypto_secretbox_open"]) := by
  simp [enif_crypto_secretbox_open, secretboxOpenCheck, extO, extW,
    inspectBinary, flattenIolist, subBinary, writeBuf, sub64]
  decide

/-- Witness for C8: in an environment whose open primitives reject short
padded ciphertexts, a successful secretbox_open of a 40-byte padded
ciphertext returns a binary whose length is the exact difference 40 - 32. -/
theorem open_success_no_underflow_witness :
    ∃ ct n k : List Nat,
      secretboxOpenCheck
          [Term.bin (List.replicate 40 7), Term.bin (List.replicate 24 0),
            Term.bin (List.replicate 32 0)] = some (ct, n, k) ∧
      crypto_secretbox_ZEROBYTES ≤ ct.length ∧
      sub64 ct.length crypto_secretbox_ZEROBYTES =
        ct.length - crypto_secretbox_ZEROBYTES ∧
      (List.replicate 8 0).length = ct.length - crypto_secretbox_ZEROBYTES :=
  (open_success_no_underflow extO extO_secretbox_open_short extO_box_open_short).1
    [Term.bin (List.replicate 40 7), Term.bin (List.replicate 24 0),
      Term.bin (List.replicate 32 0)]
    (List.replicate 8 0)
    [.alloc 40, .prim "crypto_secretbox_open"]
    extO_secretbox_open_forty

/-- C9: with a valid 24-byte nonce and 32-byte key and a successful
allocation, enif_crypto_stream returns a binary of exactly the requested
length for every representable requested length (so an empty binary for
length 0), and enif_crypto_stream_xor returns a ciphertext whose length
equals the flattened input message's length. -/
theorem stream_exact_length :
    (∀ (ext : Ext) (clen : Nat) (n k : List Nat),
        clen < 2 ^ 64 → n.length = crypto_stream_NONCEBYTES →
        k.length = crypto_stream_KEYBYTES → ext.alloc 0 clen = true →
        enif_crypto_stream ext [Term.int (clen : Int), Term.bin n, Term.bin k] =
          (.bin (writeBuf clen (ext.stream clen n k)),
            [.alloc clen, .prim "crypto_stream"]) ∧
        (writeBuf clen (ext.stream clen n k)).length = clen) ∧
    (∀ (ext : Ext) (t : Term) (m n k : List Nat),
        flattenIolist t = some m → n.length = crypto_stream_NONCEBYTES →
        k.length = crypto_stream_KEYBYTES → ext.alloc 0 m.length = true →
        enif_crypto_stream_xor ext [t, Term.bin n, Term.bin k] =
          (.bin (writeBuf m.length (ext.stream_xor m n k)),
            [.alloc m.length, .prim "crypto_stream_xor"]) ∧
        (writeBuf m.length (ext.stream_xor m n k)).length = m.length) :=
  ⟨fun ext clen n k hlt hn hk ha =>
      ⟨enif_crypto_stream_run (streamCheck_int hlt hn hk) ha, writeBuf_length _ _⟩,
    fun ext t m n k hm hn hk ha =>
      ⟨enif_crypto_stream_xor_run (streamXorCheck_parts hm hn hk) ha,
        writeBuf_length _ _⟩⟩

/-- Witness for C9: a stream request of length 0 returns the empty binary. -/
theorem stream_exact_length_witness :
    enif_crypto_stream extW
        [Term.int ((0 : Nat) : Int), Term.bin (List.replicate 24 0),
          Term.bin (List.replicate 32 0)] =
      (.bin (writeBuf 0 (extW.stream 0 (List.replicate 24 0) (List.replicate 32 0))),
        [.alloc 0, .prim "crypto_stream"]) ∧
    (writeBuf 0 (extW.stream 0 (List.replicate 24 0) (List.replicate 32 0))).length = 0 :=
  stream_exact_length.1 extW 0 (List.replicate 24 0) (List.replicate 32 0)
    (by decide) (by decide) (by decide) rfl

/-- C10: the message/ciphertext argument of every operation is accepted as
an arbitrary iolist — the call behaves exactly as if the flattened binary
had been passed — while key, nonce and authenticator arguments must be flat
binaries: any non-binary term in such a position, in particular an iolist
that would flatten to the correct length, is rejected with badarg. -/
theorem iolist_message_flat_key_discipline :
    (∀ (ext : Ext) (t : Term) (bs : List Nat), flattenIolist t = some bs →
        enif_crypto_hash ext [t] = enif_crypto_hash ext [Term.bin bs]) ∧
    (∀ (ext : Ext) (t : Term) (bs : List Nat) (a1 a2 a3 : Term),
        flattenIolist t = some bs →
        enif_crypto_box ext [t, a1, a2, a3] =
          enif_crypto_box ext [Term.bin bs, a1, a2, a3]) ∧
    (∀ (ext : Ext) (t : Term) (bs : List Nat) (a1 a2 a3 : Term),
        flattenIolist t = some bs →
        enif_crypto_box_open ext [t, a1, a2, a3] =
          enif_crypto_box_open ext [Term.bin bs, a1, a2, a3]) ∧
    (∀ (ext : Ext) (t : Term) (bs : List Nat) (a1 : Term),
        flattenIolist t = some bs →
        enif_crypto_sign ext [t, a1] = enif_crypto_sign ext [Term.bin bs, a1]) ∧
    (∀ (ext : Ext) (t : Term) (bs : List Nat) (a1 : Term),
        flattenIolist t = some bs →
        enif_crypto_sign_open ext [t, a1] =
          enif_crypto_sign_open ext [Term.bin bs, a1]) ∧
    (∀ (ext : Ext) (t : Term) (bs : List Nat) (a1 a2 : Term),
        flattenIolist t = some bs →
        enif_crypto_secretbox ext [t, a1, a2] =
          enif_crypto_secretbox ext [Term.bin bs, a1, a2]) ∧
    (∀ (ext : Ext) (t : Term) (bs : List Nat) (a1 a2 : Term),
        flattenIolist t = some bs →
        enif_crypto_secretbox_open ext [t, a1, a2] =
          enif_crypto_secretbox_open ext [Term.bin bs, a1, a2]) ∧
    (∀ (ext : Ext) (t : Term) (bs : List Nat) (a1 a2 : Term),
        flattenIolist t = some bs →
        enif_crypto_stream_xor ext [t, a1, a2] =
          enif_crypto_stream_xor ext [Term.bin bs, a1, a2]) ∧
    (∀ (ext : Ext) (t : Term) (bs : List Nat) (a1 : Term),
        flattenIolist t = some bs →
        enif_crypto_auth ext [t, a1] = enif_crypto_auth ext [Term.bin bs, a1]) ∧
    (∀ (ext : Ext) (a0 t : Term) (bs : List Nat) (a2 : Term),
        flattenIolist t = some bs →
        enif_crypto_auth_verify ext [a0, t, a2] =
          enif_crypto_auth_verify ext [a0, Term.bin bs, a2]) ∧
    (∀ (ext : Ext) (t : Term) (bs : List Nat) (a1 : Term),
        flattenIolist t = some bs →
        enif_crypto_onetimeauth ext [t, a1] =
          enif_crypto_onetimeauth ext [Term.bin bs, a1]) ∧
    (∀ (ext : Ext) (a0 t : Term) (bs : List Nat) (a2 : Term),
        flattenIolist t = some bs →
        enif_crypto_onetimeauth_verify ext [a0, t, a2] =
          enif_crypto_onetimeauth_verify ext [a0, Term.bin bs, a2]) ∧
    (∀ (ext : Ext) (a0 t1 t2 t3 : Term),
        (∀ b, t1 ≠ Term.bin b) ∨ (∀ b, t2 ≠ Term.bin b) ∨
          (∀ b, t3 ≠ Term.bin b) →
        enif_crypto_box ext [a0, t1, t2, t3] = (.badarg, [])) ∧
    (∀ (ext : Ext) (a0 t1 t2 t3 : Term),
        (∀ b, t1 ≠ Term.bin b) ∨ (∀ b, t2 ≠ Term.bin b) ∨
          (∀ b, t3 ≠ Term.bin b) →
        enif_crypto_box_open ext [a0, t1, t2, t3] = (.badarg, [])) ∧
    (∀ (ext : Ext) (a0 t1 : Term), (∀ b, t1 ≠ Term.bin b) →
        enif_crypto_sign ext [a0, t1] = (.badarg, [])) ∧
    (∀ (ext : Ext) (a0 t1 : Term), (∀ b, t1 ≠ Term.bin b) →
        enif_crypto_sign_open ext [a0, t1] = (.badarg, [])) ∧
    (∀ (ext : Ext) (a0 t1 t2 : Term),
        (∀ b, t1 ≠ Term.bin b) ∨ (∀ b, t2 ≠ Term.bin b) →
        enif_crypto_secretbox ext [a0, t1, t2] = (.badarg, [])) ∧
    (∀ (ext : Ext) (a0 t1 t2 : Term),
        (∀ b, t1 ≠ Term.bin b) ∨ (∀ b, t2 ≠ Term.bin b) →
        enif_crypto_secretbox_open ext [a0, t1, t2] = (.badarg, [])) ∧
    (∀ (ext : Ext) (a0 t1 t2 : Term),
        (∀ b, t1 ≠ Term.bin b) ∨ (∀ b, t2 ≠ Term.bin b) →
        enif_crypto_stream ext [a0, t1, t2] = (.badarg, [])) ∧
    (∀ (ext : Ext) (a0 t1 t2 : Term),
        (∀ b, t1 ≠ Term.bin b) ∨ (∀ b, t2 ≠ Term.bin b) →
        enif_crypto_stream_xor ext [a0, t1, t2] = (.badarg, [])) ∧
    (∀ (ext : Ext) (a0 t1 : Term), (∀ b, t1 ≠ Term.bin b) →
        enif_crypto_auth ext [a0, t1] = (.badarg, [])) ∧
    (∀ (ext : Ext) (t0 a1 t2 : Term),
        (∀ b, t0 ≠ Term.bin b) ∨ (∀ b, t2 ≠ Term.bin b) →
        enif_crypto_auth_verify ext [t0, a1, t2] = (.badarg, [])) ∧
    (∀ (ext : Ext) (a0 t1 : Term), (∀ b, t1 ≠ Term.bin b) →
        enif_crypto_onetimeauth ext [a0, t1] = (.badarg, [])) ∧
    (∀ (ext : Ext) (t0 a1 t2 : Term),
        (∀ b, t0 ≠ Term.bin b) ∨ (∀ b, t2 ≠ Term.bin b) →
        enif_crypto_onetimeauth_verify ext [t0, a1, t2] = (.badarg, [])) ∧
    (∀ (ext : Ext) (msg nonce t : Term) (kbytes : List Nat),
        flattenIolist t = some kbytes →
        kbytes.length = crypto_secretbox_KEYBYTES →
        (∀ b, t ≠ Term.bin b) →
        enif_crypto_secretbox ext [msg, nonce, t] = (.badarg, [])) := by
  refine ⟨?_, ?_, ?_, ?_, ?_, ?_, ?_, ?_, ?_, ?_, ?_, ?_, ?_, ?_, ?_, ?_, ?_,
    ?_, ?_, ?_, ?_, ?_, ?_, ?_, ?_⟩
  · intro ext t bs h
    unfold enif_crypto_hash; rw [hashCheck_iolist h]
  · intro ext t bs a1 a2 a3 h
    unfold enif_crypto_box; rw [boxCheck_iolist h]
  · intro ext t bs a1 a2 a3 h
    unfold enif_crypto_box_open; rw [boxOpenCheck_iolist h]
  · intro ext t bs a1 h
    unfold enif_crypto_sign; rw [signCheck_iolist h]
  · intro ext t bs a1 h
    unfold enif_crypto_sign_open; rw [signOpenCheck_iolist h]
  · intro ext t bs a1 a2 h
    unfold enif_crypto_secretbox; rw [secretboxCheck_iolist h]
  · intro ext t bs a1 a2 h
    unfold enif_crypto_secretbox_open; rw [secretboxOpenCheck_iolist h]
  · intro ext t bs a1 a2 h
    unfold enif_crypto_stream_xor; rw [streamXorCheck_iolist h]
  · intro ext t bs a1 h
    unfold enif_crypto_auth; rw [authCheck_iolist h]
  · intro ext a0 t bs a2 h
    unfold enif_crypto_auth_verify; rw [authVerifyCheck_iolist a0 h]
  · intro ext t bs a1 h
    unfold enif_crypto_onetimeauth; rw [onetimeauthCheck_iolist h]
  · intro ext a0 t bs a2 h
    unfold enif_crypto_onetimeauth_verify; rw [onetimeauthVerifyCheck_iolist a0 h]
  · intro ext a0 t1 t2 t3 h
    rcases h with h | h | h
    · exact box_badarg (boxCheck_nonce_nonbin a0 (inspectBinary_eq_none h) t2 t3)
    · exact box_badarg (boxCheck_pk_nonbin a0 t1 (inspectBinary_eq_none h) t3)
    · exact box_badarg (boxCheck_sk_nonbin a0 t1 t2 (inspectBinary_eq_none h))
  · intro ext a0 t1 t2 t3 h
    rcases h with h | h | h
    · exact box_open_badarg
        (boxOpenCheck_nonce_nonbin a0 (inspectBinary_eq_none h) t2 t3)
    · exact box_open_badarg
        (boxOpenCheck_pk_nonbin a0 t1 (inspectBinary_eq_none h) t3)
    · exact box_open_badarg
        (boxOpenCheck_sk_nonbin a0 t1 t2 (inspectBinary_eq_none h))
  · intro ext a0 t1 h
    exact sign_badarg (signCheck_sk_nonbin a0 (inspectBinary_eq_none h))
  · intro ext a0 t1 h
    exact sign_open_badarg (signOpenCheck_pk_nonbin a0 (inspectBinary_eq_none h))
  · intro ext a0 t1 t2 h
    rcases h with h | h
    · exact secretbox_badarg
        (secretboxCheck_nonce_nonbin a0 (inspectBinary_eq_none h) t2)
    · exact secretbox_badarg
        (secretboxCheck_key_nonbin a0 t1 (inspectBinary_eq_none h))
  · intro ext a0 t1 t2 h
    rcases h with h | h
    · exact secretbox_open_badarg
        (secretboxOpenCheck_nonce_nonbin a0 (inspectBinary_eq_none h) t2)
    · exact secretbox_open_badarg
        (secretboxOpenCheck_key_nonbin a0 t1 (inspectBinary_eq_none h))
  · intro ext a0 t1 t2 h
    rcases h with h | h
    · exact stream_badarg
        (streamCheck_nonce_nonbin a0 (inspectBinary_eq_none h) t2)
    · exact stream_badarg
        (streamCheck_key_nonbin a0 t1 (inspectBinary_eq_none h))
  · intro ext a0 t1 t2 h
    rcases h with h | h
    · exact stream_xor_badarg
        (streamXorCheck_nonce_nonbin a0 (inspectBinary_eq_none h) t2)
    · exact stream_xor_badarg
        (streamXorCheck_key_nonbin a0 t1 (inspectBinary_eq_none h))
  · intro ext a0 t1 h
    exact auth_badarg (authCheck_key_nonbin a0 (inspectBinary_eq_none h))
  · intro ext t0 a1 t2 h
    rcases h with h | h
    · exact auth_verify_badarg
        (authVerifyCheck_tag_nonbin (inspectBinary_eq_none h) a1 t2)
    · exact auth_verify_badarg
        (authVerifyCheck_key_nonbin t0 a1 (inspectBinary_eq_none h))
  · intro ext a0 t1 h
    exact onetimeauth_badarg (onetimeauthCheck_key_nonbin a0 (inspectBinary_eq_none h))
  · intro ext t0 a1 t2 h
    rcases h with h | h
    · exact onetimeauth_verify_badarg
        (onetimeauthVerifyCheck_tag_nonbin (inspectBinary_eq_none h) a1 t2)
    · exact onetimeauth_verify_badarg
        (onetimeauthVerifyCheck_key_nonbin t0 a1 (inspectBinary_eq_none h))
  · intro ext msg nonce t kbytes hflat hlen hnb
    exact secretbox_badarg
      (secretboxCheck_key_nonbin msg nonce (inspectBinary_eq_none hnb))

/-- Witness for C10: a secretbox key given as the one-element iolist
wrapping a correct 32-byte binary is rejected with badarg. -/
theorem iolist_message_flat_key_discipline_witness :
    enif_crypto_secretbox extW
      [Term.bin (List.replicate 32 0), Term.bin (List.replicate 24 0),
        Term.lst [Term.bin (List.replicate 32 0)]] = (.badarg, []) :=
  (iolist_message_flat_key_discipline.2.2.2.2.2.2.2.2.2.2.2.2.2.2.2.2.2.2.2.2.2.2.2.2)
    extW (Term.bin (List.replicate 32 0)) (Term.bin (List.replicate 24 0))
    (Term.lst [Term.bin (List.replicate 32 0)]) (List.replicate 32 0)
    (by decide) (by decide) (fun b h => Term.noConfusion h)

end Enacl
